import Mathlib

/-!
Verification development for the `icp-demo` client repository.

The repository is a thin typed invocation layer over a remote ledger
canister: `src/agent.rs` defines a `Service` facade of constant-name
wrappers dispatching on a query channel or an update channel, and
`src/scenarios.rs` drives a demo workflow that derives composite asset
identifiers locally and batches balance queries under a silenced trace
flag.  The definitions below are a shallow embedding of those parts of
the source; machine integers are modelled as `Nat` with explicit bounds
where overflow matters, and arbitrary-precision `candid::Nat` values as
`Nat`.
-/

namespace IcpDemo

/-! ## Big-endian byte conversions

`num_bigint::BigUint::to_bytes_be` / `from_bytes_be` as used by
`Scenarios::create_asset` (src/scenarios.rs lines 357-381), and
`u16::to_be_bytes` for the ledger identifier. -/

/-- Big-endian base-256 digits of a natural number, most significant first;
the empty list for zero.  Implemented with a structural fuel argument so
that the definition reduces by `decide`; `n` itself is always sufficient
fuel. -/
def beDigitsF : Nat → Nat → List Nat
  | 0, _ => []
  | _ + 1, 0 => []
  | f + 1, n => beDigitsF f (n / 256) ++ [n % 256]

/-- Big-endian base-256 digits, most significant first (empty for 0).
This is `BigUint`'s digit sequence without the leading-zero byte that
`to_bytes_be` emits for zero. -/
def beDigits (n : Nat) : List Nat := beDigitsF n n

/-- `BigUint::to_bytes_be`: big-endian bytes of a natural number; the
single byte `0` for zero. -/
def natToBytesBe (n : Nat) : List Nat :=
  if n = 0 then [0] else beDigits n

/-- `BigUint::from_bytes_be`: interpret a byte list as a big-endian
unsigned integer. -/
def natFromBytesBe (bs : List Nat) : Nat :=
  bs.foldl (fun acc b => acc * 256 + b) 0

/-- `u16::to_be_bytes`: the two big-endian bytes of a 16-bit value. -/
def u16ToBeBytes (x : Nat) : List Nat := [x / 256 % 256, x % 256]

/-! ## Composite asset identifier (src/scenarios.rs)

`const CLMP_LEDGER_ID: LedgerId = 1;` and the local derivation inside
`Scenarios::create_asset`: the asset id's `BigUint` big-endian bytes are
copied into a buffer, the ledger id's `u16` big-endian bytes are
appended, and the buffer is read back as a big-endian `BigUint`. -/

def CLMP_LEDGER_ID : Nat := 1

/-- The locally computed `unique_asset_id` of `Scenarios::create_asset`:
big-endian bytes of `asset_id`, followed by the fixed-width big-endian
bytes of `CLMP_LEDGER_ID`, interpreted as one big-endian integer. -/
def createAssetUniqueId (asset_id : Nat) : Nat :=
  natFromBytesBe (natToBytesBe asset_id ++ u16ToBeBytes CLMP_LEDGER_ID)

/-! ### Arithmetic facts about the byte conversions -/

theorem natFromBytesBe_go (bs : List Nat) (acc : Nat) :
    bs.foldl (fun acc b => acc * 256 + b) acc =
      acc * 256 ^ bs.length + natFromBytesBe bs := by
  induction bs generalizing acc with
  | nil => simp [natFromBytesBe]
  | cons b rest ih =>
      simp only [List.foldl_cons, natFromBytesBe, List.length_cons]
      rw [ih (acc * 256 + b), ih (0 * 256 + b)]
      ring

theorem natFromBytesBe_append (xs ys : List Nat) :
    natFromBytesBe (xs ++ ys) =
      natFromBytesBe xs * 256 ^ ys.length + natFromBytesBe ys := by
  simp only [natFromBytesBe, List.foldl_append]
  exact natFromBytesBe_go ys _

theorem beDigitsF_congr (n : Nat) :
    ∀ f f' : Nat, n ≤ f → n ≤ f' → beDigitsF f n = beDigitsF f' n := by
  induction n using Nat.strong_induction_on with
  | _ n ih =>
    intro f f' hf hf'
    match n, f, f' with
    | 0, 0, 0 => rfl
    | 0, 0, _ + 1 => rfl
    | 0, _ + 1, 0 => rfl
    | 0, _ + 1, _ + 1 => rfl
    | m + 1, a + 1, b + 1 =>
        show beDigitsF a ((m + 1) / 256) ++ _ = beDigitsF b ((m + 1) / 256) ++ _
        have hlt : (m + 1) / 256 < m + 1 :=
          Nat.div_lt_self (Nat.succ_pos m) (by norm_num)
        rw [ih _ hlt a b (by omega) (by omega)]

theorem beDigits_step (m : Nat) :
    beDigits (m + 1) = beDigits ((m + 1) / 256) ++ [(m + 1) % 256] := by
  show beDigitsF m ((m + 1) / 256) ++ [(m + 1) % 256] = _
  have hlt : (m + 1) / 256 < m + 1 :=
    Nat.div_lt_self (Nat.succ_pos m) (by norm_num)
  rw [beDigitsF_congr ((m + 1) / 256) m ((m + 1) / 256) (by omega) (le_refl _)]
  rfl

theorem natFromBytesBe_beDigits (n : Nat) :
    natFromBytesBe (beDigits n) = n := by
  induction n using Nat.strong_induction_on with
  | _ n ih =>
    match n with
    | 0 => rfl
    | m + 1 =>
        rw [beDigits_step m, natFromBytesBe_append]
        have hlt : (m + 1) / 256 < m + 1 :=
          Nat.div_lt_self (Nat.succ_pos m) (by norm_num)
        rw [ih _ hlt]
        have h1 : natFromBytesBe [(m + 1) % 256] = (m + 1) % 256 := by
          simp [natFromBytesBe]
        rw [h1]
        simp only [List.length_singleton, pow_one]
        omega

theorem natFromBytesBe_natToBytesBe (n : Nat) :
    natFromBytesBe (natToBytesBe n) = n := by
  by_cases h : n = 0
  · subst h; rfl
  · simp only [natToBytesBe, if_neg h]
    exact natFromBytesBe_beDigits n

/-- The key arithmetic form of the derivation, shared by the theorems for
the composite-identifier claims. -/
theorem createAssetUniqueId_eq (a : Nat) :
    createAssetUniqueId a = a * 2 ^ 16 + CLMP_LEDGER_ID := by
  unfold createAssetUniqueId
  rw [natFromBytesBe_append, natFromBytesBe_natToBytesBe]
  norm_num [u16ToBeBytes, natFromBytesBe, CLMP_LEDGER_ID]

/-! ## Method Facade catalog (src/agent.rs)

Every public wrapper on `Service` performs `Encode!` of its typed
arguments, then calls `self.query(method_name, args)` or
`self.update(method_name, args)` with a constant method-name string.
`FacadeOp` enumerates the wrappers by their Rust function name;
`methodName`, `channel` and `retTy` transcribe, for each wrapper, the
`method_name` string literal, which of the two dispatch functions it
calls, and its declared success return type. -/

/-- The dispatch channel: `Service::query` or `Service::update`. -/
inductive Channel where
  | query
  | update
  deriving DecidableEq, Repr

/-- The success return type of a facade wrapper, as declared in its Rust
signature.  `optionTy` stands for any `Option<...>` result, `u256` for
the arbitrary-precision `U256`/`Nat` results, and the four `response*`
constructors for the acknowledgement records `Response{tx_id}`,
`ResponseSupplyId`, `ResponseAmendmentId` and `ResponseContractId`. -/
inductive RetTy where
  | u8
  | bool
  | u64
  | u256
  | ledgerId
  | string
  | optionTy
  | response
  | responseSupplyId
  | responseAmendmentId
  | responseContractId
  deriving DecidableEq, Repr

/-- The facade wrappers of `impl Service` in src/agent.rs, one
constructor per public async method, in source order. -/
inductive FacadeOp where
  | ctr_get_consume_supply
  | ctr_get_make_supply
  | ctr_get_send
  | ctr_remove_address
  | ctr_remove_address_array
  | ctr_remove_blacklist
  | ctr_remove_blacklist_array
  | ctr_set_blacklist
  | ctr_set_blacklist_array
  | ctr_set_limit
  | ctr_set_limit_array
  | ctr_validate_usage_controller
  | event_account_update_count
  | event_account_update_get
  | event_administrator_changed_count
  | event_administrator_changed_get
  | event_amendment_update_count
  | event_amendment_update_get
  | event_asset_update_count
  | event_asset_update_get
  | event_blacklist_changed_count
  | event_blacklist_changed_get
  | event_controller_created_count
  | event_controller_created_get
  | event_ledger_added_count
  | event_ledger_added_get
  | event_limit_changed_count
  | event_limit_changed_get
  | event_limit_consumed_count
  | event_limit_consumed_get
  | event_ownership_transferred_count
  | event_ownership_transferred_get
  | event_pause_changed_count
  | event_pause_changed_get
  | event_pricing_changed_count
  | event_pricing_changed_get
  | event_supply_update_count
  | event_supply_update_get
  | event_tokens_created_count
  | event_tokens_created_get
  | event_tokens_destroyed_count
  | event_tokens_destroyed_get
  | get_tx
  | int_create_supply
  | int_get_balance
  | int_get_decimal_ptr
  | int_get_ledger_id
  | int_get_ledger_contract_id
  | int_get_supply
  | int_get_tokens
  | int_run_warp
  | int_set_contract
  | int_set_price
  | int_set_supply_controller
  | int_terminate_supply
  | int_transfer_tokens
  | int_update_supply_amount
  | int_update_supply_exchange_rate
  | int_update_supply_expiry_date
  | led_amen_change_issuer
  | led_amen_create_amendment
  | led_amen_get_amendment
  | led_base_activate_asset
  | led_base_create_asset
  | led_base_destroy_tokens
  | led_base_get_asset
  | led_base_issue_tokens
  | led_kyc_remove_usage_controller
  | led_kyc_set_usage_controller
  | mng_contract_deployment_code
  | mng_contract_name
  | mng_contract_version
  | mng_create_clmp
  | mng_create_controller
  | mng_create_integration
  | mng_grant_admin
  | mng_get_integration
  | mng_is_admin
  | mng_is_owner
  | mng_owner
  | mng_pause
  | mng_paused
  | mng_renounce_ownership
  | mng_revoke_admin
  | mng_transfer_ownership
  | mng_unpause
  deriving DecidableEq, Fintype, Repr

namespace FacadeOp

/-- The constant `method_name` string literal each wrapper passes to the
dispatcher. -/
def methodName : FacadeOp → String
  | ctr_get_consume_supply => "ctr_get_consume_supply"
  | ctr_get_make_supply => "ctr_get_make_supply"
  | ctr_get_send => "ctr_get_send"
  | ctr_remove_address => "ctr_remove_address"
  | ctr_remove_address_array => "ctr_remove_address"
  | ctr_remove_blacklist => "ctr_remove_blacklist"
  | ctr_remove_blacklist_array => "ctr_remove_blacklist_array"
  | ctr_set_blacklist => "ctr_set_blacklist"
  | ctr_set_blacklist_array => "ctr_set_blacklist_array"
  | ctr_set_limit => "ctr_set_limit"
  | ctr_set_limit_array => "ctr_set_limit_array"
  | ctr_validate_usage_controller => "ctr_validate_usage_controller"
  | event_account_update_count => "event_account_update_count"
  | event_account_update_get => "event_account_update_get"
  | event_administrator_changed_count => "event_administrator_changed_count"
  | event_administrator_changed_get => "event_administrator_changed_get"
  | event_amendment_update_count => "event_amendment_update_count"
  | event_amendment_update_get => "event_amendment_update_get"
  | event_asset_update_count => "event_asset_update_count"
  | event_asset_update_get => "event_asset_update_get"
  | event_blacklist_changed_count => "event_blacklist_changed_count"
  | event_blacklist_changed_get => "event_blacklist_changed_get"
  | event_controller_created_count => "event_controller_created_count"
  | event_controller_created_get => "event_controller_created_get"
  | event_ledger_added_count => "event_ledger_added_count"
  | event_ledger_added_get => "event_ledger_added_get"
  | event_limit_changed_count => "event_limit_changed_count"
  | event_limit_changed_get => "event_limit_changed_get"
  | event_limit_consumed_count => "event_limit_consumed_count"
  | event_limit_consumed_get => "event_limit_consumed_get"
  | event_ownership_transferred_count => "event_ownership_transferred_count"
  | event_ownership_transferred_get => "event_ownership_transferred_get"
  | event_pause_changed_count => "event_pause_changed_count"
  | event_pause_changed_get => "event_pause_changed_get"
  | event_pricing_changed_count => "event_pricing_changed_count"
  | event_pricing_changed_get => "event_pricing_changed_get"
  | event_supply_update_count => "event_supply_update_count"
  | event_supply_update_get => "event_supply_update_get"
  | event_tokens_created_count => "event_tokens_created_count"
  | event_tokens_created_get => "event_tokens_created_get"
  | event_tokens_destroyed_count => "event_tokens_destroyed_count"
  | event_tokens_destroyed_get => "event_tokens_destroyed_get"
  | get_tx => "get_tx"
  | int_create_supply => "int_create_supply"
  | int_get_balance => "int_get_balance"
  | int_get_decimal_ptr => "int_get_decimal_ptr"
  | int_get_ledger_id => "int_get_ledger_id"
  | int_get_ledger_contract_id => "int_get_ledger_contract_id"
  | int_get_supply => "int_get_supply"
  | int_get_tokens => "int_get_tokens"
  | int_run_warp => "int_run_warp"
  | int_set_contract => "int_set_contract"
  | int_set_price => "int_set_price"
  | int_set_supply_controller => "int_set_supply_controller"
  | int_terminate_supply => "int_terminate_supply"
  | int_transfer_tokens => "int_transfer_tokens"
  | int_update_supply_amount => "int_update_supply_amount"
  | int_update_supply_exchange_rate => "int_update_supply_exchange_rate"
  | int_update_supply_expiry_date => "int_update_supply_expiry_date"
  | led_amen_change_issuer => "led_amen_change_issuer"
  | led_amen_create_amendment => "led_amen_create_amendment"
  | led_amen_get_amendment => "led_amen_get_amendment"
  | led_base_activate_asset => "led_base_activate_asset"
  | led_base_create_asset => "led_base_create_asset"
  | led_base_destroy_tokens => "led_base_destroy_tokens"
  | led_base_get_asset => "led_base_get_asset"
  | led_base_issue_tokens => "led_base_issue_tokens"
  | led_kyc_remove_usage_controller => "led_kyc_remove_usage_controller"
  | led_kyc_set_usage_controller => "led_kyc_set_usage_controller"
  | mng_contract_deployment_code => "mng_contract_deployment_code"
  | mng_contract_name => "mng_contract_name"
  | mng_contract_version => "mng_contract_version"
  | mng_create_clmp => "mng_create_clmp"
  | mng_create_controller => "mng_create_controller"
  | mng_create_integration => "mng_create_integration"
  | mng_grant_admin => "mng_grant_admin"
  | mng_get_integration => "mng_get_integration"
  | mng_is_admin => "mng_is_admin"
  | mng_is_owner => "mng_is_owner"
  | mng_owner => "mng_owner"
  | mng_pause => "mng_pause"
  | mng_paused => "mng_paused"
  | mng_renounce_ownership => "mng_renounce_ownership"
  | mng_revoke_admin => "mng_revoke_admin"
  | mng_transfer_ownership => "mng_transfer_ownership"
  | mng_unpause => "mng_unpause"

/-- Which of the two dispatch functions (`Service::query` /
`Service::update`) each wrapper invokes. -/
def channel : FacadeOp → Channel
  | ctr_get_consume_supply => .query
  | ctr_get_make_supply => .query
  | ctr_get_send => .query
  | ctr_remove_address => .update
  | ctr_remove_address_array => .update
  | ctr_remove_blacklist => .update
  | ctr_remove_blacklist_array => .update
  | ctr_set_blacklist => .update
  | ctr_set_blacklist_array => .update
  | ctr_set_limit => .update
  | ctr_set_limit_array => .update
  | ctr_validate_usage_controller => .query
  | event_account_update_count => .query
  | event_account_update_get => .query
  | event_administrator_changed_count => .query
  | event_administrator_changed_get => .query
  | event_amendment_update_count => .query
  | event_amendment_update_get => .query
  | event_asset_update_count => .query
  | event_asset_update_get => .query
  | event_blacklist_changed_count => .query
  | event_blacklist_changed_get => .query
  | event_controller_created_count => .query
  | event_controller_created_get => .query
  | event_ledger_added_count => .query
  | event_ledger_added_get => .query
  | event_limit_changed_count => .query
  | event_limit_changed_get => .query
  | event_limit_consumed_count => .query
  | event_limit_consumed_get => .query
  | event_ownership_transferred_count => .query
  | event_ownership_transferred_get => .query
  | event_pause_changed_count => .query
  | event_pause_changed_get => .query
  | event_pricing_changed_count => .query
  | event_pricing_changed_get => .query
  | event_supply_update_count => .query
  | event_supply_update_get => .query
  | event_tokens_created_count => .query
  | event_tokens_created_get => .query
  | event_tokens_destroyed_count => .query
  | event_tokens_destroyed_get => .query
  | get_tx => .query
  | int_create_supply => .update
  | int_get_balance => .query
  | int_get_decimal_ptr => .query
  | int_get_ledger_id => .query
  | int_get_ledger_contract_id => .query
  | int_get_supply => .query
  | int_get_tokens => .query
  | int_run_warp => .update
  | int_set_contract => .update
  | int_set_price => .update
  | int_set_supply_controller => .update
  | int_terminate_supply => .update
  | int_transfer_tokens => .update
  | int_update_supply_amount => .update
  | int_update_supply_exchange_rate => .update
  | int_update_supply_expiry_date => .update
  | led_amen_change_issuer => .update
  | led_amen_create_amendment => .update
  | led_amen_get_amendment => .query
  | led_base_activate_asset => .update
  | led_base_create_asset => .update
  | led_base_destroy_tokens => .update
  | led_base_get_asset => .query
  | led_base_issue_tokens => .update
  | led_kyc_remove_usage_controller => .update
  | led_kyc_set_usage_controller => .update
  | mng_contract_deployment_code => .query
  | mng_contract_name => .query
  | mng_contract_version => .query
  | mng_create_clmp => .update
  | mng_create_controller => .update
  | mng_create_integration => .update
  | mng_grant_admin => .query
  | mng_get_integration => .query
  | mng_is_admin => .query
  | mng_is_owner => .query
  | mng_owner => .query
  | mng_pause => .update
  | mng_paused => .query
  | mng_renounce_ownership => .update
  | mng_revoke_admin => .update
  | mng_transfer_ownership => .update
  | mng_unpause => .update

/-- The declared success return type of each wrapper. -/
def retTy : FacadeOp → RetTy
  | ctr_get_consume_supply => .u8
  | ctr_get_make_supply => .u8
  | ctr_get_send => .u8
  | ctr_remove_address => .response
  | ctr_remove_address_array => .response
  | ctr_remove_blacklist => .response
  | ctr_remove_blacklist_array => .response
  | ctr_set_blacklist => .response
  | ctr_set_blacklist_array => .response
  | ctr_set_limit => .response
  | ctr_set_limit_array => .response
  | ctr_validate_usage_controller => .bool
  | event_account_update_count => .u64
  | event_account_update_get => .optionTy
  | event_administrator_changed_count => .u64
  | event_administrator_changed_get => .optionTy
  | event_amendment_update_count => .u64
  | event_amendment_update_get => .optionTy
  | event_asset_update_count => .u64
  | event_asset_update_get => .optionTy
  | event_blacklist_changed_count => .u64
  | event_blacklist_changed_get => .optionTy
  | event_controller_created_count => .u64
  | event_controller_created_get => .optionTy
  | event_ledger_added_count => .u64
  | event_ledger_added_get => .optionTy
  | event_limit_changed_count => .u64
  | event_limit_changed_get => .optionTy
  | event_limit_consumed_count => .u64
  | event_limit_consumed_get => .optionTy
  | event_ownership_transferred_count => .u64
  | event_ownership_transferred_get => .optionTy
  | event_pause_changed_count => .u64
  | event_pause_changed_get => .optionTy
  | event_pricing_changed_count => .u64
  | event_pricing_changed_get => .optionTy
  | event_supply_update_count => .u64
  | event_supply_update_get => .optionTy
  | event_tokens_created_count => .u64
  | event_tokens_created_get => .optionTy
  | event_tokens_destroyed_count => .u64
  | event_tokens_destroyed_get => .optionTy
  | get_tx => .optionTy
  | int_create_supply => .responseSupplyId
  | int_get_balance => .u256
  | int_get_decimal_ptr => .u256
  | int_get_ledger_id => .ledgerId
  | int_get_ledger_contract_id => .optionTy
  | int_get_supply => .optionTy
  | int_get_tokens => .u256
  | int_run_warp => .response
  | int_set_contract => .response
  | int_set_price => .response
  | int_set_supply_controller => .response
  | int_terminate_supply => .response
  | int_transfer_tokens => .response
  | int_update_supply_amount => .response
  | int_update_supply_exchange_rate => .responseSupplyId
  | int_update_supply_expiry_date => .response
  | led_amen_change_issuer => .responseAmendmentId
  | led_amen_create_amendment => .responseAmendmentId
  | led_amen_get_amendment => .optionTy
  | led_base_activate_asset => .response
  | led_base_create_asset => .response
  | led_base_destroy_tokens => .response
  | led_base_get_asset => .optionTy
  | led_base_issue_tokens => .response
  | led_kyc_remove_usage_controller => .response
  | led_kyc_set_usage_controller => .response
  | mng_contract_deployment_code => .string
  | mng_contract_name => .string
  | mng_contract_version => .string
  | mng_create_clmp => .responseContractId
  | mng_create_controller => .responseContractId
  | mng_create_integration => .responseContractId
  | mng_grant_admin => .bool
  | mng_get_integration => .optionTy
  | mng_is_admin => .bool
  | mng_is_owner => .bool
  | mng_owner => .optionTy
  | mng_pause => .response
  | mng_paused => .bool
  | mng_renounce_ownership => .response
  | mng_revoke_admin => .response
  | mng_transfer_ownership => .response
  | mng_unpause => .response

end FacadeOp

/-- The event-log pagination wrappers: the `event_*_count` and
`event_*_get` pairs of the facade. -/
def isEventPagination : FacadeOp → Bool
  | .event_account_update_count | .event_account_update_get
  | .event_administrator_changed_count | .event_administrator_changed_get
  | .event_amendment_update_count | .event_amendment_update_get
  | .event_asset_update_count | .event_asset_update_get
  | .event_blacklist_changed_count | .event_blacklist_changed_get
  | .event_controller_created_count | .event_controller_created_get
  | .event_ledger_added_count | .event_ledger_added_get
  | .event_limit_changed_count | .event_limit_changed_get
  | .event_limit_consumed_count | .event_limit_consumed_get
  | .event_ownership_transferred_count | .event_ownership_transferred_get
  | .event_pause_changed_count | .event_pause_changed_get
  | .event_pricing_changed_count | .event_pricing_changed_get
  | .event_supply_update_count | .event_supply_update_get
  | .event_tokens_created_count | .event_tokens_created_get
  | .event_tokens_destroyed_count | .event_tokens_destroyed_get => true
  | _ => false

/-- Whether a return type is one of the acknowledgement records
carrying a `tx_id` (`Response` or a `Response*` variant). -/
def isResponseTy : RetTy → Bool
  | .response | .responseSupplyId | .responseAmendmentId | .responseContractId => true
  | _ => false

/-! ## Invoker dispatch (src/agent.rs, `Service::query` / `Service::update`)

Both dispatch functions read the `TRACE` flag once into a local, print a
before-log when it is set, send the encoded arguments over their channel
exactly once, propagate a transport failure with the `?` operator,
decode the reply, propagate a decoding failure with `?`, print the
after-log when the captured flag is set, and return the decoded value.
The wrappers run `Encode!` first and propagate its failure with `?`
before any dispatch.  The models below make the failure at each step,
the envelopes handed to the transport, and the emitted log lines
explicit. -/

/-- The failure classification a facade call can surface. -/
inductive CallFailure where
  | encodingFailed
  | transportFailed (msg : String)
  | decodingFailed (msg : String)
  deriving DecidableEq, Repr

/-- Everything observable about one dispatch: the returned result, the
envelopes handed to the transport in order, and the log lines written. -/
structure DispatchOutcome (T : Type) where
  result : Except CallFailure T
  sent : List (List Nat)
  logs : List String

/-- The log tag of a channel: the literal printed by the corresponding
dispatch function. -/
def Channel.tag : Channel → String
  | .query => "[query]"
  | .update => "[update]"

/-- `Service::query` / `Service::update` with the captured `TRACE` value
`trace`, transport behaviour `transport`, and reply decoder
`decodeReply`: the trace flag is read once at the start; the before-log
and the after-log are both gated by that captured value; the envelope is
sent exactly once; transport and decoding failures return early. -/
def dispatchModel {T : Type} (ch : Channel) (trace : Bool)
    (transport : List Nat → Except CallFailure (List Nat))
    (decodeReply : List Nat → Except CallFailure T)
    (name : String) (args : List Nat) : DispatchOutcome T :=
  let beforeLog := if trace then [Channel.tag ch ++ " " ++ name ++ "..."] else []
  match transport args with
  | .error e => ⟨.error e, [args], beforeLog⟩
  | .ok bytes =>
      match decodeReply bytes with
      | .error e => ⟨.error e, [args], beforeLog⟩
      | .ok v => ⟨.ok v, [args], beforeLog ++ (if trace then [" ok"] else [])⟩

/-- A whole facade operation: `Encode!` the arguments (its failure
returns early via the `?` operator, before any dispatch), then dispatch
on the wrapper's constant channel and method name. -/
def facadeCallModel {T : Type} (op : FacadeOp) (trace : Bool)
    (transport : List Nat → Except CallFailure (List Nat))
    (decodeReply : List Nat → Except CallFailure T)
    (encodedArgs : Except CallFailure (List Nat)) : DispatchOutcome T :=
  match encodedArgs with
  | .error e => ⟨.error e, [], []⟩
  | .ok args => dispatchModel op.channel trace transport decodeReply op.methodName args

/-! ## Ambient identity and trace state (src/agent.rs)

`Service::set_identity` replaces the agent's signing identity
unconditionally, with no local validation; `Service::TRACE` is a
process-wide flag read once per dispatch.  The demo drives the service
sequentially, so the effect of swaps and toggles on a run is captured by
a sequential machine: each dispatched call records the credential and
the trace flag in force at its dispatch. -/

/-- A dispatch request as the machine sees it: its channel, method name,
and whether the remote round trip will succeed (which decides whether
the after-log is printed). -/
structure CallSpec where
  channel : Channel
  name : String
  succeeds : Bool
  deriving DecidableEq, Repr

/-- The log lines a dispatch writes, as a function of the trace flag it
captured at its start: nothing when the flag is off; the before-log and,
on success, the after-log when it is on. -/
def logsOf (trace : Bool) (c : CallSpec) : List String :=
  if trace then
    (Channel.tag c.channel ++ " " ++ c.name ++ "...") ::
      (if c.succeeds then [" ok"] else [])
  else []

/-- An action of the sequential client: swap the signing credential,
toggle the trace flag, or dispatch a call. -/
inductive MAction (Cred : Type) where
  | setIdentity (c : Cred)
  | setTrace (b : Bool)
  | dispatch (call : CallSpec)
  deriving DecidableEq, Repr

/-- The ambient state: the agent's current signing credential and the
`TRACE` flag. -/
structure MState (Cred : Type) where
  ident : Cred
  trace : Bool
  deriving DecidableEq, Repr

/-- The record a dispatched call leaves behind: which credential signed
it (captured at dispatch) and which log lines it wrote (gated by the
trace flag captured at dispatch). -/
structure CallRecord (Cred : Type) where
  call : CallSpec
  signer : Cred
  logs : List String
  deriving DecidableEq, Repr

/-- One machine step.  `setIdentity` replaces the credential
unconditionally (`Agent::set_identity`); `setTrace` writes the flag
(`Service::TRACE.set`); `dispatch` leaves the state unchanged and
records the credential and trace flag in force. -/
def stepM {Cred : Type} (s : MState Cred) : MAction Cred → MState Cred × List (CallRecord Cred)
  | .setIdentity c => ({ s with ident := c }, [])
  | .setTrace b => ({ s with trace := b }, [])
  | .dispatch c => (s, [⟨c, s.ident, logsOf s.trace c⟩])

/-- Run a sequence of actions, collecting the dispatch records in
order. -/
def runM {Cred : Type} (s : MState Cred) : List (MAction Cred) → MState Cred × List (CallRecord Cred)
  | [] => (s, [])
  | a :: rest =>
      ((runM (stepM s a).1 rest).1,
        (stepM s a).2 ++ (runM (stepM s a).1 rest).2)

/-- Whether an action is an identity swap. -/
def isSetIdentity {Cred : Type} : MAction Cred → Bool
  | .setIdentity _ => true
  | _ => false

theorem runM_append {Cred : Type} (s : MState Cred) (xs ys : List (MAction Cred)) :
    runM s (xs ++ ys) =
      ((runM (runM s xs).1 ys).1, (runM s xs).2 ++ (runM (runM s xs).1 ys).2) := by
  induction xs generalizing s with
  | nil => simp [runM]
  | cons a rest ih =>
      simp only [List.cons_append, runM, List.append_eq]
      rw [ih ((stepM s a).1)]
      simp [List.append_assoc]

/-- Dispatches in a run with no identity swap are all signed with the
starting credential, and the run does not change the credential. -/
theorem runM_signers {Cred : Type} (s : MState Cred) (acts : List (MAction Cred))
    (h : ∀ a ∈ acts, isSetIdentity a = false) :
    (runM s acts).1.ident = s.ident ∧
      ∀ r ∈ (runM s acts).2, r.signer = s.ident := by
  induction acts generalizing s with
  | nil => simp [runM]
  | cons a rest ih =>
      have ha : isSetIdentity a = false := h a (List.mem_cons_self a rest)
      have hrest : ∀ a' ∈ rest, isSetIdentity a' = false :=
        fun a' ha' => h a' (List.mem_cons_of_mem a ha')
      cases a with
      | setIdentity c => simp [isSetIdentity] at ha
      | setTrace b =>
          simp only [runM, stepM]
          have := ih { s with trace := b } hrest
          simpa using this
      | dispatch c =>
          simp only [runM, stepM]
          have := ih s hrest
          constructor
          · exact this.1
          · intro r hr
            simp only [List.cons_append, List.nil_append, List.mem_cons] at hr
            rcases hr with rfl | hr
            · rfl
            · exact this.2 r hr

/-- A run consisting only of trace toggles and identity swaps produces
no records. -/
theorem runM_records_of_dispatch_free {Cred : Type} (s : MState Cred)
    (acts : List (MAction Cred))
    (h : ∀ a ∈ acts, ∀ c, a ≠ MAction.dispatch c) :
    (runM s acts).2 = [] := by
  induction acts generalizing s with
  | nil => simp [runM]
  | cons a rest ih =>
      have hrest : ∀ a' ∈ rest, ∀ c, a' ≠ MAction.dispatch c :=
        fun a' ha' => h a' (List.mem_cons_of_mem a ha')
      cases a with
      | setIdentity c => simp [runM, stepM, ih _ hrest]
      | setTrace b => simp [runM, stepM, ih _ hrest]
      | dispatch c =>
          exact absurd rfl (h (MAction.dispatch c) (List.mem_cons_self _ _) c)

/-! ## `Scenarios::print_balances` (src/scenarios.rs lines 234-347)

The function sets `Service::TRACE` to `false`, issues twelve
`int_get_balance` queries (three assets by four holders, row by row),
each propagated with the `?` operator, prints the table, and sets
`Service::TRACE` to the constant `true` before returning `Ok`.  An error
from any balance query returns early, skipping the `TRACE.set(true)`. -/

/-- The demo's three assets, in table-row order. -/
inductive DemoAsset where
  | re
  | usd
  | btc
  deriving DecidableEq, Repr

/-- The demo's four balance holders, in table-column order. -/
inductive Holder where
  | alice
  | bob
  | charlie
  | exchange
  deriving DecidableEq, Repr

/-- The twelve `int_get_balance` calls of `print_balances`, in the order
the rows issue them. -/
def balanceQueryOrder : List (DemoAsset × Holder) :=
  [(.re, .alice), (.re, .bob), (.re, .charlie), (.re, .exchange),
   (.usd, .alice), (.usd, .bob), (.usd, .charlie), (.usd, .exchange),
   (.btc, .alice), (.btc, .bob), (.btc, .charlie), (.btc, .exchange)]

/-- Issue a list of fallible queries sequentially with early return:
the overall result, and how many queries were actually dispatched. -/
def batchRun (qs : List (Except CallFailure Nat)) :
    Except CallFailure (List Nat) × Nat :=
  match qs with
  | [] => (.ok [], 0)
  | q :: rest =>
      match q with
      | .error e => (.error e, 1)
      | .ok v =>
          match batchRun rest with
          | (.error e, n) => (.error e, n + 1)
          | (.ok vs, n) => (.ok (v :: vs), n + 1)

/-- The trace-relevant outcome of `print_balances`: its result, the
`TRACE` value it leaves behind, and the `TRACE` value each dispatched
balance query captured. -/
structure PrintBalancesOutcome where
  result : Except CallFailure Unit
  traceAfter : Bool
  dispatchTraceFlags : List Bool

/-- `Scenarios::print_balances` given the remote balance behaviour `bal`
and the `TRACE` value `traceBefore` on entry: `TRACE` is set to `false`,
the twelve balance queries run in order under that value with early
return, and only on the success path is `TRACE` set — to the constant
`true`, not to `traceBefore`. -/
def printBalancesModel (bal : DemoAsset → Holder → Except CallFailure Nat)
    (_traceBefore : Bool) : PrintBalancesOutcome :=
  match batchRun (balanceQueryOrder.map fun q => bal q.1 q.2) with
  | (.error e, n) => ⟨.error e, false, List.replicate n false⟩
  | (.ok _, n) => ⟨.ok (), true, List.replicate n false⟩

/-! ## Type Transcoder

Modelled from the spec: the `Encode!` / `Decode!` transcoder invoked by
every wrapper lives in the external `candid` crate, not under src/, so
its schema-driven wire format is modelled from the spec's words — a
self-describing positional binary encoding over a value space of
arbitrary-precision unsigned integers, booleans, byte strings,
optionals (a presence tag followed by the payload only when present),
ordered lists, records of named fields in declared order, variants
(named tag plus payload), and an opaque caller-address type, with all
multi-byte numeric encodings big-endian. -/

mutual

/-- A schema shape of the transcoder's value space. -/
inductive Shape where
  | snat
  | sbool
  | sbytes
  | saddress
  | sopt (s : Shape)
  | slist (s : Shape)
  | srecord (fields : ShapeList)
  | svariant (alts : ShapeList)

/-- A positional list of shapes: a record's field shapes in declared
order, or a variant's alternatives in tag order. -/
inductive ShapeList where
  | nil
  | cons (s : Shape) (rest : ShapeList)

end

mutual

/-- A typed value of the transcoder's value space. -/
inductive Value where
  | vnat (n : Nat)
  | vbool (b : Bool)
  | vbytes (bs : List Nat)
  | vaddress (bs : List Nat)
  | vnone
  | vsome (v : Value)
  | vlist (elems : ValueList)
  | vrecord (fields : ValueList)
  | vvariant (tag : Nat) (payload : Value)

/-- A positional list of values. -/
inductive ValueList where
  | nil
  | cons (v : Value) (rest : ValueList)

end

/-- Index into a shape list (a variant's alternative for a tag, or a
record's field shape by position). -/
def ShapeList.nth : ShapeList → Nat → Option Shape
  | .nil, _ => none
  | .cons s _, 0 => some s
  | .cons _ rest, n + 1 => rest.nth n

/-- Number of values in a positional list. -/
def ValueList.length : ValueList → Nat
  | .nil => 0
  | .cons _ rest => rest.length + 1

mutual

/-- A value's runtime tag matches the declared shape. -/
def wellTyped : Shape → Value → Bool
  | .snat, .vnat _ => true
  | .sbool, .vbool _ => true
  | .sbytes, .vbytes bs => bs.all fun b => b < 256
  | .saddress, .vaddress bs => bs.all fun b => b < 256
  | .sopt _, .vnone => true
  | .sopt s, .vsome v => wellTyped s v
  | .slist s, .vlist elems => listTyped s elems
  | .srecord fs, .vrecord vs => fieldsTyped fs vs
  | .svariant alts, .vvariant tag payload =>
      match alts.nth tag with
      | some s => wellTyped s payload
      | none => false
  | _, _ => false

/-- Every element of a list is well typed at the element shape. -/
def listTyped : Shape → ValueList → Bool
  | _, .nil => true
  | s, .cons v rest => wellTyped s v && listTyped s rest

/-- A record's values match its field shapes positionally (arity
included). -/
def fieldsTyped : ShapeList → ValueList → Bool
  | .nil, .nil => true
  | .cons s srest, .cons v vrest => wellTyped s v && fieldsTyped srest vrest
  | _, _ => false

end

/-- Self-delimiting big-endian encoding of an arbitrary-precision
unsigned integer: the digit count in unary (that many `1` bytes, then a
`0` byte), followed by the big-endian base-256 digits. -/
def natEnc (n : Nat) : List Nat :=
  List.replicate (beDigits n).length 1 ++ 0 :: beDigits n

/-- Read back the unary digit count. -/
def takeOnes : List Nat → Option (Nat × List Nat)
  | [] => none
  | 0 :: rest => some (0, rest)
  | 1 :: rest =>
      match takeOnes rest with
      | some (k, r) => some (k + 1, r)
      | none => none
  | _ => none

/-- Read `k` raw bytes off the front of the buffer. -/
def readBytes : Nat → List Nat → Option (List Nat × List Nat)
  | 0, input => some ([], input)
  | _ + 1, [] => none
  | k + 1, b :: rest =>
      match readBytes k rest with
      | some (bs, r) => some (b :: bs, r)
      | none => none

/-- Decode a self-delimiting big-endian unsigned integer. -/
def natDec (input : List Nat) : Option (Nat × List Nat) :=
  match takeOnes input with
  | none => none
  | some (k, r) =>
      match readBytes k r with
      | none => none
      | some (bs, r2) => some (natFromBytesBe bs, r2)

mutual

/-- Encode a typed value into its canonical binary form: integers as
self-delimiting big-endian numbers, booleans as one byte, byte strings
and addresses length-prefixed, optionals as a presence tag followed by
the payload only when present, lists length-prefixed, records as their
fields in declared order, variants as the tag followed by the payload. -/
def encodeV : Value → List Nat
  | .vnat n => natEnc n
  | .vbool b => [if b then 1 else 0]
  | .vbytes bs => natEnc bs.length ++ bs
  | .vaddress bs => natEnc bs.length ++ bs
  | .vnone => [0]
  | .vsome v => 1 :: encodeV v
  | .vlist elems => natEnc elems.length ++ encodeVL elems
  | .vrecord fields => encodeVL fields
  | .vvariant tag payload => natEnc tag ++ encodeV payload

/-- Encode a positional list of values by concatenation. -/
def encodeVL : ValueList → List Nat
  | .nil => []
  | .cons v rest => encodeV v ++ encodeVL rest

end

mutual

/-- Decode a buffer against a shape, returning the decoded value and the
unconsumed remainder, or `none` when the bytes do not parse into the
expected shape. -/
def decodeV : Shape → List Nat → Option (Value × List Nat)
  | .snat, input =>
      match natDec input with
      | some (n, r) => some (.vnat n, r)
      | none => none
  | .sbool, input =>
      match input with
      | 0 :: r => some (.vbool false, r)
      | 1 :: r => some (.vbool true, r)
      | _ => none
  | .sbytes, input =>
      match natDec input with
      | some (len, r) =>
          match readBytes len r with
          | some (bs, r2) => some (.vbytes bs, r2)
          | none => none
      | none => none
  | .saddress, input =>
      match natDec input with
      | some (len, r) =>
          match readBytes len r with
          | some (bs, r2) => some (.vaddress bs, r2)
          | none => none
      | none => none
  | .sopt s, input =>
      match input with
      | 0 :: r => some (.vnone, r)
      | 1 :: r =>
          match decodeV s r with
          | some (v, r2) => some (.vsome v, r2)
          | none => none
      | _ => none
  | .slist s, input =>
      match natDec input with
      | some (len, r) =>
          match decodeElems s len r with
          | some (elems, r2) => some (.vlist elems, r2)
          | none => none
      | none => none
  | .srecord fs, input =>
      match decodeFields fs input with
      | some (vs, r) => some (.vrecord vs, r)
      | none => none
  | .svariant alts, input =>
      match natDec input with
      | some (tag, r) =>
          match decodeVariantPayload alts tag r with
          | some (v, r2) => some (.vvariant tag v, r2)
          | none => none
      | none => none
termination_by s _ => (sizeOf s, 1, 0)

/-- Decode exactly `k` list elements of a given shape. -/
def decodeElems : Shape → Nat → List Nat → Option (ValueList × List Nat)
  | _, 0, input => some (.nil, input)
  | s, k + 1, input =>
      match decodeV s input with
      | some (v, r) =>
          match decodeElems s k r with
          | some (vs, r2) => some (.cons v vs, r2)
          | none => none
      | none => none
termination_by s k _ => (sizeOf s, 2, k)

/-- Decode a record's fields positionally against their shapes. -/
def decodeFields : ShapeList → List Nat → Option (ValueList × List Nat)
  | .nil, input => some (.nil, input)
  | .cons s rest, input =>
      match decodeV s input with
      | some (v, r) =>
          match decodeFields rest r with
          | some (vs, r2) => some (.cons v vs, r2)
          | none => none
      | none => none
termination_by fs _ => (sizeOf fs, 0, 0)

/-- Decode a variant's payload against the alternative selected by the
tag; an unknown tag is a decoding failure. -/
def decodeVariantPayload : ShapeList → Nat → List Nat → Option (Value × List Nat)
  | .nil, _, _ => none
  | .cons s _, 0, input => decodeV s input
  | .cons _ rest, n + 1, input => decodeVariantPayload rest n input
termination_by alts _ _ => (sizeOf alts, 0, 0)

end

/-! ### Transcoder round-trip lemmas -/

theorem takeOnes_replicate (k : Nat) (tail : List Nat) :
    takeOnes (List.replicate k 1 ++ 0 :: tail) = some (k, tail) := by
  induction k with
  | zero => simp [takeOnes]
  | succ k ih => simp [List.replicate_succ, takeOnes, ih]

theorem readBytes_exact (bs : List Nat) (tail : List Nat) :
    readBytes bs.length (bs ++ tail) = some (bs, tail) := by
  induction bs with
  | nil => simp [readBytes]
  | cons b rest ih => simp [readBytes, ih]

theorem natDec_natEnc (n : Nat) (rest : List Nat) :
    natDec (natEnc n ++ rest) = some (n, rest) := by
  have h1 : natEnc n ++ rest =
      List.replicate (beDigits n).length 1 ++ 0 :: (beDigits n ++ rest) := by
    simp [natEnc]
  rw [h1]
  simp only [natDec, takeOnes_replicate, readBytes_exact]
  rw [natFromBytesBe_beDigits]

theorem decodeVariantPayload_nth (alts : ShapeList) :
    ∀ (tag : Nat) (input : List Nat),
      decodeVariantPayload alts tag input =
        match alts.nth tag with
        | some s => decodeV s input
        | none => none := by
  match alts with
  | .nil => intro tag input; cases tag <;> simp [decodeVariantPayload, ShapeList.nth]
  | .cons s rest =>
      intro tag input
      cases tag with
      | zero => simp [decodeVariantPayload, ShapeList.nth]
      | succ n =>
          simp [decodeVariantPayload, ShapeList.nth,
            decodeVariantPayload_nth rest n input]
termination_by sizeOf alts

mutual

theorem decodeV_encodeV (v : Value) :
    ∀ (s : Shape), wellTyped s v = true →
      ∀ rest, decodeV s (encodeV v ++ rest) = some (v, rest) := by
  match v with
  | .vnat n =>
      intro s hw rest
      match s with
      | .snat => simp [encodeV, decodeV, natDec_natEnc]
      | .sbool | .sbytes | .saddress | .sopt _ | .slist _ | .srecord _
      | .svariant _ => simp [wellTyped] at hw
  | .vbool b =>
      intro s hw rest
      match s with
      | .sbool => cases b <;> simp [encodeV, decodeV]
      | .snat | .sbytes | .saddress | .sopt _ | .slist _ | .srecord _
      | .svariant _ => simp [wellTyped] at hw
  | .vbytes bs =>
      intro s hw rest
      match s with
      | .sbytes =>
          simp only [encodeV, List.append_assoc, decodeV, natDec_natEnc,
            readBytes_exact]
      | .snat | .sbool | .saddress | .sopt _ | .slist _ | .srecord _
      | .svariant _ => simp [wellTyped] at hw
  | .vaddress bs =>
      intro s hw rest
      match s with
      | .saddress =>
          simp only [encodeV, List.append_assoc, decodeV, natDec_natEnc,
            readBytes_exact]
      | .snat | .sbool | .sbytes | .sopt _ | .slist _ | .srecord _
      | .svariant _ => simp [wellTyped] at hw
  | .vnone =>
      intro s hw rest
      match s with
      | .sopt s0 => simp [encodeV, decodeV]
      | .snat | .sbool | .sbytes | .saddress | .slist _ | .srecord _
      | .svariant _ => simp [wellTyped] at hw
  | .vsome v0 =>
      intro s hw rest
      match s with
      | .sopt s0 =>
          have hv : wellTyped s0 v0 = true := by
            simpa [wellTyped] using hw
          simp [encodeV, decodeV, decodeV_encodeV v0 s0 hv rest]
      | .snat | .sbool | .sbytes | .saddress | .slist _ | .srecord _
      | .svariant _ => simp [wellTyped] at hw
  | .vlist elems =>
      intro s hw rest
      match s with
      | .slist s0 =>
          have hl : listTyped s0 elems = true := by
            simpa [wellTyped] using hw
          simp only [encodeV, List.append_assoc, decodeV, natDec_natEnc]
          rw [decodeElems_encodeVL elems s0 hl rest]
      | .snat | .sbool | .sbytes | .saddress | .sopt _ | .srecord _
      | .svariant _ => simp [wellTyped] at hw
  | .vrecord fields =>
      intro s hw rest
      match s with
      | .srecord fs =>
          have hf : fieldsTyped fs fields = true := by
            simpa [wellTyped] using hw
          simp only [encodeV, decodeV]
          rw [decodeFields_encodeVL fields fs hf rest]
      | .snat | .sbool | .sbytes | .saddress | .sopt _ | .slist _
      | .svariant _ => simp [wellTyped] at hw
  | .vvariant tag payload =>
      intro s hw rest
      match s with
      | .svariant alts =>
          have hw' : (match alts.nth tag with
              | some s0 => wellTyped s0 payload
              | none => false) = true := by
            simpa [wellTyped] using hw
          match halts : alts.nth tag with
          | some s0 =>
              have hp : wellTyped s0 payload = true := by
                rw [halts] at hw'
                simpa using hw'
              simp only [encodeV, List.append_assoc, decodeV, natDec_natEnc,
                decodeVariantPayload_nth, halts]
              rw [decodeV_encodeV payload s0 hp rest]
          | none =>
              rw [halts] at hw'
              simp at hw'
      | .snat | .sbool | .sbytes | .saddress | .sopt _ | .slist _
      | .srecord _ => simp [wellTyped] at hw
termination_by (sizeOf v, 0)

theorem decodeElems_encodeVL (l : ValueList) :
    ∀ (s : Shape), listTyped s l = true →
      ∀ rest, decodeElems s l.length (encodeVL l ++ rest) = some (l, rest) := by
  match l with
  | .nil => intro s _ rest; simp [ValueList.length, encodeVL, decodeElems]
  | .cons v vrest =>
      intro s hl rest
      have hv : wellTyped s v = true := by
        have := hl
        simp [listTyped, Bool.and_eq_true] at this
        exact this.1
      have hrest : listTyped s vrest = true := by
        have := hl
        simp [listTyped, Bool.and_eq_true] at this
        exact this.2
      show decodeElems s (vrest.length + 1) (encodeVL (.cons v vrest) ++ rest) = _
      simp only [encodeVL, List.append_assoc, decodeElems,
        decodeV_encodeV v s hv (encodeVL vrest ++ rest),
        decodeElems_encodeVL vrest s hrest rest]
termination_by (sizeOf l, 1)

theorem decodeFields_encodeVL (l : ValueList) :
    ∀ (fs : ShapeList), fieldsTyped fs l = true →
      ∀ rest, decodeFields fs (encodeVL l ++ rest) = some (l, rest) := by
  match l with
  | .nil =>
      intro fs hf rest
      match fs with
      | .nil => simp [encodeVL, decodeFields]
      | .cons _ _ => simp [fieldsTyped] at hf
  | .cons v vrest =>
      intro fs hf rest
      match fs with
      | .nil => simp [fieldsTyped] at hf
      | .cons s srest =>
          have hv : wellTyped s v = true := by
            have := hf
            simp [fieldsTyped, Bool.and_eq_true] at this
            exact this.1
          have hrest : fieldsTyped srest vrest = true := by
            have := hf
            simp [fieldsTyped, Bool.and_eq_true] at this
            exact this.2
          simp only [encodeVL, List.append_assoc, decodeFields,
            decodeV_encodeV v s hv (encodeVL vrest ++ rest),
            decodeFields_encodeVL vrest srest hrest rest]
termination_by (sizeOf l, 1)

end

/-! ## `Scenarios::create_asset` as a whole operation

The function awaits the remote `led_base_activate_asset` update,
propagating its failure with the `?` operator, and then computes the
composite identifier purely from `req.asset_id`; the remote reply's
value is discarded and contributes nothing to the identifier. -/

/-- `Scenarios::create_asset`: the activation round trip (its `Response`
acknowledgement modelled by its `tx_id`) followed by the local
derivation. -/
def createAssetModel (activate : Except CallFailure Nat) (asset_id : Nat) :
    Except CallFailure Nat :=
  match activate with
  | .error e => .error e
  | .ok _ => .ok (createAssetUniqueId asset_id)

/-! ## Concrete call specimens used by witnesses -/

/-- A representative query dispatch. -/
def specCallA : CallSpec := ⟨Channel.query, "int_get_balance", true⟩

/-- A representative update dispatch. -/
def specCallB : CallSpec := ⟨Channel.update, "int_transfer_tokens", true⟩

/-- A transport that always fails, for exercising failure propagation. -/
def failingTransport : List Nat → Except CallFailure (List Nat) :=
  fun _ => .error (.transportFailed "connection refused")

/-- A record covering the schema's boundary shapes: an integer field, an
optional, a list, and a nested multi-field record. -/
def boundaryShape : Shape :=
  .srecord (.cons .snat (.cons .snat (.cons (.sopt .sbool)
    (.cons (.slist .snat)
      (.cons (.srecord (.cons .snat (.cons .sbool (.cons .sbytes .nil))))
        .nil)))))

/-- The boundary value at `boundaryShape`: zero, the maximum 256-bit
unsigned integer, an absent optional, an empty list, and a nested record
with all-default fields. -/
def boundaryValue : Value :=
  .vrecord (.cons (.vnat 0) (.cons (.vnat (2 ^ 256 - 1)) (.cons .vnone
    (.cons (.vlist .nil)
      (.cons (.vrecord (.cons (.vnat 0) (.cons (.vbool false)
        (.cons (.vbytes []) .nil))))
        .nil)))))

/-! ## Claim theorems -/

/-- Claim C1: the facade defines two distinctly-named wrapper operations
`ctr_remove_address` and `ctr_remove_address_array` that both dispatch
the identical remote method name string `"ctr_remove_address"`, while
the analogous blacklist-removal pair dispatches different remote method
names (`"ctr_remove_blacklist"` and `"ctr_remove_blacklist_array"`). -/
theorem claim_C1_remove_address_alias :
    FacadeOp.ctr_remove_address ≠ FacadeOp.ctr_remove_address_array ∧
    FacadeOp.methodName FacadeOp.ctr_remove_address = "ctr_remove_address" ∧
    FacadeOp.methodName FacadeOp.ctr_remove_address_array = "ctr_remove_address" ∧
    FacadeOp.methodName FacadeOp.ctr_remove_blacklist = "ctr_remove_blacklist" ∧
    FacadeOp.methodName FacadeOp.ctr_remove_blacklist_array =
      "ctr_remove_blacklist_array" ∧
    FacadeOp.methodName FacadeOp.ctr_remove_blacklist ≠
      FacadeOp.methodName FacadeOp.ctr_remove_blacklist_array :=
  ⟨by decide, rfl, rfl, rfl, rfl, by decide⟩

/-- Claim C2: for every asset identifier and the fixed 16-bit ledger
identifier, the composite identifier computed by `create_asset` is the
big-endian integer reading of the asset's big-endian bytes followed by
the ledger identifier's fixed-width big-endian bytes, and as an integer
it equals `asset_id * 2 ^ 16 + CLMP_LEDGER_ID`. -/
theorem claim_C2_composite_id_value :
    ∀ a : Nat,
      createAssetUniqueId a =
        natFromBytesBe (natToBytesBe a ++ u16ToBeBytes CLMP_LEDGER_ID) ∧
      createAssetUniqueId a = a * 2 ^ 16 + CLMP_LEDGER_ID :=
  fun a => ⟨rfl, createAssetUniqueId_eq a⟩

/-- Claim C3: the composite-identifier derivation is injective in the
asset identifier for the fixed ledger identifier, and in
`create_asset` the result is computed locally and deterministically:
whenever the activation round trip succeeds, the result is
`createAssetUniqueId asset_id`, whatever value the remote reply
carried. -/
theorem claim_C3_injective_and_local :
    (∀ a1 a2 : Nat, a1 ≠ a2 →
      createAssetUniqueId a1 ≠ createAssetUniqueId a2) ∧
    (∀ r a : Nat, createAssetModel (.ok r) a = .ok (createAssetUniqueId a)) := by
  constructor
  · intro a1 a2 hne h
    rw [createAssetUniqueId_eq, createAssetUniqueId_eq] at h
    omega
  · intro r a
    rfl

/-- Witness for C3 at the concrete distinct asset identifiers 0 and 1. -/
theorem claim_C3_witness :
    (0 : Nat) ≠ 1 ∧ createAssetUniqueId 0 ≠ createAssetUniqueId 1 :=
  ⟨by decide, claim_C3_injective_and_local.1 0 1 (by decide)⟩

/-- Claim C4: `set_identity` replaces the active signing credential
unconditionally and without local validation; in a sequential run, a
call dispatched after the swap and before any further swap is signed
with the new credential, and a call dispatched before the swap keeps
the record it captured at dispatch time. -/
theorem claim_C4_identity_capture {Cred : Type} (s0 : MState Cred)
    (pre post : List (MAction Cred)) (B : Cred)
    (hpost : post.all (fun a => !isSetIdentity a) = true) :
    (∀ (s : MState Cred) (c : Cred),
      (stepM s (MAction.setIdentity c)).1.ident = c) ∧
    (runM s0 (pre ++ MAction.setIdentity B :: post)).2 =
      (runM s0 pre).2 ++ (runM ⟨B, (runM s0 pre).1.trace⟩ post).2 ∧
    (∀ r ∈ (runM (⟨B, (runM s0 pre).1.trace⟩ : MState Cred) post).2,
      r.signer = B) := by
  have h' : ∀ a ∈ post, isSetIdentity a = false := by
    intro a ha
    have := List.all_eq_true.mp hpost a ha
    simpa using this
  refine ⟨fun s c => rfl, ?_, ?_⟩
  · have h2 : (runM (runM s0 pre).1 (MAction.setIdentity B :: post)).2 =
        (runM (⟨B, (runM s0 pre).1.trace⟩ : MState Cred) post).2 := rfl
    rw [runM_append, h2]
  · intro r hr
    exact (runM_signers ⟨B, (runM s0 pre).1.trace⟩ post h').2 r hr

/-- Witness for C4: one dispatch before a swap to credential 7 and one
after; the record lists split exactly at the swap. -/
theorem claim_C4_witness :
    ([MAction.dispatch specCallB] : List (MAction Nat)).all
      (fun a => !isSetIdentity a) = true ∧
    (runM (⟨0, true⟩ : MState Nat)
        ([MAction.dispatch specCallA] ++
          MAction.setIdentity 7 :: [MAction.dispatch specCallB])).2 =
      (runM (⟨0, true⟩ : MState Nat) [MAction.dispatch specCallA]).2 ++
        (runM (⟨7, (runM (⟨0, true⟩ : MState Nat)
            [MAction.dispatch specCallA]).1.trace⟩ : MState Nat)
          [MAction.dispatch specCallB]).2 :=
  ⟨by decide,
    (claim_C4_identity_capture (⟨0, true⟩ : MState Nat)
      [MAction.dispatch specCallA] [MAction.dispatch specCallB] 7
      (by decide)).2.1⟩

/-- Claim C5: every facade wrapper dispatches on exactly one channel
that is a static property of the wrapper: every event-log pagination
wrapper dispatches on the query channel, every wrapper returning a
`Response`-style acknowledgement dispatches on the update channel, and
every wrapper returning a plain value or an `Option` dispatches on the
query channel. -/
theorem claim_C5_static_channel :
    ∀ op : FacadeOp,
      (isEventPagination op = true → op.channel = Channel.query) ∧
      (isResponseTy op.retTy = true → op.channel = Channel.update) ∧
      (isResponseTy op.retTy = false → op.channel = Channel.query) := by
  decide

/-- Witness for C5 at a pagination query and an update wrapper. -/
theorem claim_C5_witness :
    isEventPagination FacadeOp.event_tokens_created_count = true ∧
    FacadeOp.channel FacadeOp.event_tokens_created_count = Channel.query ∧
    isResponseTy (FacadeOp.retTy FacadeOp.int_transfer_tokens) = true ∧
    FacadeOp.channel FacadeOp.int_transfer_tokens = Channel.update :=
  ⟨by decide,
    (claim_C5_static_channel FacadeOp.event_tokens_created_count).1 (by decide),
    by decide,
    (claim_C5_static_channel FacadeOp.int_transfer_tokens).2.1 (by decide)⟩

/-- Claim C6: a single facade invocation hands at most one envelope to
the transport, performs no retry, and propagates every failure —
encoding, transport, or decoding — immediately as the call's own
result. -/
theorem claim_C6_single_send {T : Type} (op : FacadeOp) (trace : Bool)
    (transport : List Nat → Except CallFailure (List Nat))
    (decodeReply : List Nat → Except CallFailure T)
    (encodedArgs : Except CallFailure (List Nat)) :
    (facadeCallModel op trace transport decodeReply encodedArgs).sent.length ≤ 1 ∧
    (∀ e, encodedArgs = Except.error e →
      (facadeCallModel op trace transport decodeReply encodedArgs).result =
        Except.error e ∧
      (facadeCallModel op trace transport decodeReply encodedArgs).sent = []) ∧
    (∀ args e, encodedArgs = Except.ok args → transport args = Except.error e →
      (facadeCallModel op trace transport decodeReply encodedArgs).result =
        Except.error e) ∧
    (∀ args bytes e, encodedArgs = Except.ok args →
      transport args = Except.ok bytes → decodeReply bytes = Except.error e →
      (facadeCallModel op trace transport decodeReply encodedArgs).result =
        Except.error e) := by
  refine ⟨?_, ?_, ?_, ?_⟩
  · cases encodedArgs with
    | error e => simp [facadeCallModel]
    | ok args =>
        cases htr : transport args with
        | error e => simp [facadeCallModel, dispatchModel, htr]
        | ok bytes =>
            cases hdec : decodeReply bytes <;>
              simp [facadeCallModel, dispatchModel, htr, hdec]
  · intro e he
    subst he
    exact ⟨rfl, rfl⟩
  · intro args e he htr
    subst he
    simp [facadeCallModel, dispatchModel, htr]
  · intro args bytes e he htr hdec
    subst he
    simp [facadeCallModel, dispatchModel, htr, hdec]

/-- Witness for C6: a transport failure on an update call surfaces as
the call's result, with exactly one envelope handed to the transport. -/
theorem claim_C6_witness :
    ((Except.ok [5] : Except CallFailure (List Nat)) = Except.ok [5]) ∧
    failingTransport [5] =
      Except.error (CallFailure.transportFailed "connection refused") ∧
    (facadeCallModel FacadeOp.int_transfer_tokens true failingTransport
      (fun bs => Except.ok bs) (Except.ok [5])).sent.length ≤ 1 ∧
    (facadeCallModel FacadeOp.int_transfer_tokens true failingTransport
      (fun bs => Except.ok bs) (Except.ok [5])).result =
      Except.error (CallFailure.transportFailed "connection refused") :=
  ⟨rfl, rfl,
    (claim_C6_single_send FacadeOp.int_transfer_tokens true failingTransport
      (fun bs => Except.ok bs) (Except.ok [5])).1,
    (claim_C6_single_send FacadeOp.int_transfer_tokens true failingTransport
      (fun bs => Except.ok bs) (Except.ok [5])).2.2.1 [5] _ rfl rfl⟩

/-- Claim C7: argument encoding happens before any network dispatch —
when encoding fails, the whole facade call returns that encoding error
with nothing sent over the transport and no trace output. -/
theorem claim_C7_encode_before_dispatch {T : Type} (op : FacadeOp)
    (trace : Bool) (transport : List Nat → Except CallFailure (List Nat))
    (decodeReply : List Nat → Except CallFailure T) (e : CallFailure) :
    facadeCallModel op trace transport decodeReply (Except.error e) =
      ⟨Except.error e, [], []⟩ :=
  rfl

/-- Claim C8: each dispatch reads the trace flag exactly once at its
start, both log lines of the call are gated by that captured value, a
captured `false` produces no trace output at all, and toggling the flag
affects only dispatches issued afterwards — never one already made. -/
theorem claim_C8_trace_single_read {Cred : Type} (s0 : MState Cred)
    (pre : List (MAction Cred)) (b : Bool) (call : CallSpec) (ch : Channel) :
    (∀ s : MState Cred, (stepM s (MAction.dispatch call)).2 =
        [⟨call, s.ident, logsOf s.trace call⟩]) ∧
    logsOf false call = [] ∧
    (∀ (transport : List Nat → Except CallFailure (List Nat))
        (dec : List Nat → Except CallFailure Nat)
        (name : String) (args : List Nat),
        (dispatchModel ch false transport dec name args).logs = []) ∧
    (runM s0 (pre ++ [MAction.setTrace b])).2 = (runM s0 pre).2 ∧
    (runM s0 (pre ++ [MAction.setTrace b, MAction.dispatch call])).2 =
      (runM s0 pre).2 ++ [⟨call, (runM s0 pre).1.ident, logsOf b call⟩] := by
  refine ⟨fun s => rfl, rfl, ?_, ?_, ?_⟩
  · intro transport dec name args
    simp only [dispatchModel]
    cases transport args with
    | error e => simp
    | ok bytes =>
        cases hdec : dec bytes with
        | error e => simp [hdec]
        | ok v => simp [hdec]
  · rw [runM_append]
    simp [runM, stepM]
  · rw [runM_append]
    simp [runM, stepM]

/-- Claim C9: for every schema shape and every well-typed value of that
shape, decoding the envelope produced by encoding the value yields the
value back with the buffer fully consumed. -/
theorem claim_C9_roundtrip (s : Shape) (v : Value)
    (h : wellTyped s v = true) :
    decodeV s (encodeV v) = some (v, []) := by
  have := decodeV_encodeV v s h []
  rwa [List.append_nil] at this

/-- Witness for C9 at the boundary record: zero, the maximum 256-bit
unsigned integer, an absent optional, an empty list, and a nested
all-default record. -/
theorem claim_C9_witness :
    wellTyped boundaryShape boundaryValue = true ∧
    decodeV boundaryShape (encodeV boundaryValue) =
      some (boundaryValue, []) :=
  ⟨by simp [boundaryShape, boundaryValue, wellTyped, listTyped, fieldsTyped],
    claim_C9_roundtrip boundaryShape boundaryValue
      (by simp [boundaryShape, boundaryValue, wellTyped, listTyped, fieldsTyped])⟩

/-- Claim C10: `print_balances` silences the trace flag before its batch
of balance queries (each dispatched query captures `false`), restores
the constant `true` — not the prior value — only on the success path,
and on any balance-query failure returns that error with the flag still
`false`. -/
theorem claim_C10_trace_restore
    (bal : DemoAsset → Holder → Except CallFailure Nat) (t t' : Bool) :
    printBalancesModel bal t = printBalancesModel bal t' ∧
    (∀ f ∈ (printBalancesModel bal t).dispatchTraceFlags, f = false) ∧
    (∀ e, (printBalancesModel bal t).result = Except.error e →
      (printBalancesModel bal t).traceAfter = false) ∧
    (∀ u, (printBalancesModel bal t).result = Except.ok u →
      (printBalancesModel bal t).traceAfter = true) ∧
    (∀ e, bal DemoAsset.re Holder.alice = Except.error e →
      printBalancesModel bal t = ⟨Except.error e, false, [false]⟩) := by
  refine ⟨rfl, ?_, ?_, ?_, ?_⟩
  · intro f hf
    cases hb : batchRun (balanceQueryOrder.map fun q => bal q.1 q.2) with
    | mk res n =>
        cases res with
        | error e =>
            simp only [printBalancesModel, hb] at hf
            exact (List.eq_of_mem_replicate hf)
        | ok vs =>
            simp only [printBalancesModel, hb] at hf
            exact (List.eq_of_mem_replicate hf)
  · intro e he
    cases hb : batchRun (balanceQueryOrder.map fun q => bal q.1 q.2) with
    | mk res n =>
        cases res with
        | error e2 => simp [printBalancesModel, hb]
        | ok vs => simp [printBalancesModel, hb] at he ⊢
  · intro u hu
    cases hb : batchRun (balanceQueryOrder.map fun q => bal q.1 q.2) with
    | mk res n =>
        cases res with
        | error e2 => simp [printBalancesModel, hb] at hu ⊢
        | ok vs => simp [printBalancesModel, hb]
  · intro e he
    simp [printBalancesModel, balanceQueryOrder, batchRun, he]

/-- Witness for C10: with all twelve balances answering, the result is
success and the flag ends `true`. -/
theorem claim_C10_witness :
    ((printBalancesModel (fun _ _ => Except.ok 5) false).result =
      Except.ok ()) ∧
    (printBalancesModel (fun _ _ => Except.ok 5) false).traceAfter = true :=
  ⟨rfl,
    (claim_C10_trace_restore (fun _ _ => Except.ok 5) false false).2.2.2.1
      () rfl⟩

end IcpDemo
